import Mathlib

/-
  Verification of the pyodoo_connector repository against its specification.

  The development shallowly embeds the Python source:
  - JSON-like values become the inductive type Value;
  - Python dictionaries become association lists with Python's
    insertion-ordered update semantics (setKey / dictUpdate);
  - the HTTP transport becomes a scripted oracle (World) that records every
    request actually sent, so that on-the-wire payloads and RPC counts are
    observable;
  - exceptions become Except / explicit outcome types.
-/

namespace Pyodoo

/-- JSON-like values exchanged with the server (Python: None, bool, int, str,
list, dict). -/
inductive Value where
  | vNone : Value
  | vBool : Bool → Value
  | vInt : Int → Value
  | vStr : String → Value
  | vList : List Value → Value
  | vDict : List (String × Value) → Value

/-- Association list standing for a Python dict with string keys. -/
abbrev Dict := List (String × Value)

/-- Lookup of a key, first occurrence (Python d[k] / d.get(k)). -/
def dictGet (d : Dict) (k : String) : Option Value :=
  match d with
  | [] => none
  | (k1, v) :: rest => if k1 = k then some v else dictGet rest k

/-- Python k in d. -/
def hasKey (d : Dict) (k : String) : Bool :=
  (dictGet d k).isSome

/-- Python d[k] = v : overwrite in place if the key exists, else append. -/
def setKey (d : Dict) (k : String) (v : Value) : Dict :=
  match d with
  | [] => [(k, v)]
  | (k1, v1) :: rest => if k1 = k then (k1, v) :: rest else (k1, v1) :: setKey rest k v

/-- Python d.update(e) : set every key of e, in order, into d. -/
def dictUpdate (d : Dict) : Dict → Dict
  | [] => d
  | (k, v) :: rest => dictUpdate (setKey d k v) rest

/-- Python truthiness of a value. -/
def truthy : Value → Bool
  | .vNone => false
  | .vBool b => b
  | .vInt n => n != 0
  | .vStr s => !s.isEmpty
  | .vList xs => !xs.isEmpty
  | .vDict d => !d.isEmpty

/-- Lookup inside a dict-shaped value (Python v.get(k), None when absent or
when v is not a dict). -/
def Value.jsGet (v : Value) (k : String) : Value :=
  match v with
  | .vDict d => (dictGet d k).getD .vNone
  | _ => .vNone

/-- Lookup with an explicit default (Python v.get(k, dflt)). -/
def Value.jsGetD (v : Value) (k : String) (dflt : Value) : Value :=
  match v with
  | .vDict d => (dictGet d k).getD dflt
  | _ => dflt

/-- Python k in v for a dict-shaped value. -/
def Value.hasKeyV (v : Value) (k : String) : Bool :=
  match v with
  | .vDict d => hasKey d k
  | _ => false

/-- Python v is a dict (isinstance(v, dict)). -/
def Value.isDict : Value → Bool
  | .vDict _ => true
  | _ => false

/-! Command encoder, from src/pyodoo_connect/tools.py.  The module constants
and the seven classmethods returning fixed relational-mutation triples. -/

def CREATE : Int := 0
def UPDATE : Int := 1
def DELETE : Int := 2
def UNLINK : Int := 3
def LINK : Int := 4
def CLEAR : Int := 5
def SET : Int := 6

namespace Command

/-- Command.create(values) from tools.py: the triple (CREATE, 0, values). -/
def create (values : Dict) : Int × Int × Value := (CREATE, 0, .vDict values)

/-- Command.update(id, values) from tools.py: the triple (UPDATE, id, values). -/
def update (id : Int) (values : Dict) : Int × Int × Value := (UPDATE, id, .vDict values)

/-- Command.delete(id) from tools.py: the triple (DELETE, id, 0). -/
def delete (id : Int) : Int × Int × Value := (DELETE, id, .vInt 0)

/-- Command.unlink(id) from tools.py: the triple (UNLINK, id, 0). -/
def unlink (id : Int) : Int × Int × Value := (UNLINK, id, .vInt 0)

/-- Command.link(id) from tools.py: the triple (LINK, id, 0). -/
def link (id : Int) : Int × Int × Value := (LINK, id, .vInt 0)

/-- Command.clear() from tools.py: the triple (CLEAR, 0, 0). -/
def clear : Int × Int × Value := (CLEAR, 0, .vInt 0)

/-- Command.set(ids) from tools.py: the triple (SET, 0, ids). -/
def set (ids : List Value) : Int × Int × Value := (SET, 0, .vList ids)

end Command

/-! Record-proxy layer, from src/pyodoo_connect/proxies.py.

The ModelProxy of that file forwards every call to the remote server through
the Odoo instance.  Here the remote side is a Server oracle: for each kind of
RPC issued by the RecordProxy code (fields_get, read, write) the oracle gives
the response the server would send, and an exception outcome for write.
Each oracle consultation is one RPC on the wire; the functions below return
the number of RPCs they issued so that RPC counts are observable. -/

/-- Exceptions that can cross the proxy layer (Python ValueError from argument
validation, and any error raised by the underlying RPC machinery). -/
inductive PyErr where
  | valueError : String → PyErr
  | rpcError : String → PyErr

/-- Server oracle answering the three RPCs issued by the RecordProxy code:
fieldsGet gives the keys of the fields_get response, readResp the list of
record dicts returned by read, and writeResp the outcome of write. -/
structure Server where
  fieldsGet : String → List String → List String
  readResp : String → List Int → List String → List (List (String × Value))
  writeResp : String → List Int → Dict → Except PyErr Value

/-- MethodCaller from proxies.py: remembers the target model, the record id,
the method name and the record's context; model_name stands in for the
model_proxy reference of the source. -/
structure MethodCaller where
  model_name : String
  record_id : Int
  method_name : String
  context : Dict

/-- The RPC that MethodCaller.call hands to odoo.execute_function: model name,
ids, method name and keyword arguments, exactly as put on the wire. -/
structure SentCall where
  model : String
  ids : List Int
  method : String
  kwargs : Dict

/-- MethodCaller.call from proxies.py.  Renames a write method to update,
reinterprets a single positional dict as the values keyword (discarding the
caller's keyword arguments, as the source does), rejects any other positional
arguments with a ValueError before anything is sent, then injects the stored
context into kwargs when it is non-empty and dispatches through
execute_function.  A returned SentCall is the RPC actually issued; an error
means no network call occurred. -/
def MethodCaller.call (mc : MethodCaller) (args : List Value) (kwargs0 : Dict) :
    Except PyErr SentCall :=
  let method_name := if mc.method_name = "write" then "update" else mc.method_name
  match args with
  | .vDict d :: _ =>
      let kwargs := [("values", Value.vDict d)]
      let kwargs := if mc.context.isEmpty then kwargs
                    else setKey kwargs "context" (.vDict mc.context)
      .ok ⟨mc.model_name, [mc.record_id], method_name, kwargs⟩
  | _ :: _ =>
      .error (.valueError "Positional arguments must be a single dictionary containing the parameters for the method.")
  | [] =>
      let kwargs := if mc.context.isEmpty then kwargs0
                    else setKey kwargs0 "context" (.vDict mc.context)
      .ok ⟨mc.model_name, [mc.record_id], method_name, kwargs⟩

/-- RecordProxy from proxies.py: model name (standing for the model_proxy
reference), record id, context, the value cache and the loaded set. -/
structure RecordProxy where
  model_name : String
  record_id : Int
  context : Dict
  values : Dict
  loaded_fields : List String

/-- RecordProxy.fetch_field from proxies.py: one fields_get RPC; a KeyError
(modelled as the error case) when the server reports no such field; otherwise
one read RPC, and when the result is non-empty the first record is merged
into the value cache and the field is marked loaded.  The second component
counts the RPCs issued. -/
def RecordProxy.fetch_field (srv : Server) (p : RecordProxy) (field_name : String) :
    Except Unit RecordProxy × Nat :=
  let fields_info := srv.fieldsGet p.model_name [field_name]
  if field_name ∈ fields_info then
    match srv.readResp p.model_name [p.record_id] [field_name] with
    | [] => (.ok p, 2)
    | first :: _ =>
        (.ok { p with values := dictUpdate p.values first,
                      loaded_fields := p.loaded_fields.insert field_name }, 2)
  else (.error (), 1)

/-- Outcome of an attribute read on a RecordProxy: a field value or a bound
MethodCaller. -/
inductive GetAttrResult where
  | value : Value → GetAttrResult
  | method : MethodCaller → GetAttrResult

/-- RecordProxy.getattr, the dunder getattr of proxies.py: a cached value is
returned with no RPC; an unloaded name is fetched (the KeyError of fetch_field
falls through to the method case); anything else becomes a MethodCaller.
Returns the result, the possibly-updated proxy and the number of RPCs. -/
def RecordProxy.getattr (srv : Server) (p : RecordProxy) (name : String) :
    GetAttrResult × RecordProxy × Nat :=
  match dictGet p.values name with
  | some v => (.value v, p, 0)
  | none =>
      if name ∉ p.loaded_fields then
        match p.fetch_field srv name with
        | (.ok p1, n) => (.value ((dictGet p1.values name).getD .vNone), p1, n)
        | (.error _, n) => (.method ⟨p.model_name, p.record_id, name, p.context⟩, p, n)
      else (.method ⟨p.model_name, p.record_id, name, p.context⟩, p, 0)

/-- Names routed to ordinary object attribute assignment by the dunder setattr
of proxies.py. -/
def RecordProxy.internalNames : List String :=
  ["model_proxy", "record_id", "values", "loaded_fields", "context"]

/-- Python name.startswith with the underscore character, over the character
list of the string. -/
def startsWithUnderscore (name : String) : Bool :=
  match name.data with
  | [] => false
  | c :: _ => c = '_'

/-- Python predicate guarding the dunder setattr of proxies.py. -/
def RecordProxy.isInternal (name : String) : Bool :=
  name ∈ RecordProxy.internalNames || startsWithUnderscore name

/-- Outcome of an attribute write on a RecordProxy. -/
inductive SetAttrOutcome where
  | internalSet : SetAttrOutcome
  | ok : SetAttrOutcome
  | error : PyErr → SetAttrOutcome

/-- RecordProxy.setattr, the dunder setattr of proxies.py: internal names are
plain object attribute assignments; for a field name one write RPC is issued
and on its success the value cache is updated (the loaded set is not touched).
When the write raises, the exception propagates and the proxy is unchanged.
Returns the outcome, the resulting proxy state and the number of RPCs. -/
def RecordProxy.setattr (srv : Server) (p : RecordProxy) (name : String) (value : Value) :
    SetAttrOutcome × RecordProxy × Nat :=
  if RecordProxy.isInternal name then (.internalSet, p, 0)
  else
    match srv.writeResp p.model_name [p.record_id] [(name, value)] with
    | .error e => (.error e, p, 1)
    | .ok _ => (.ok, { p with values := setKey p.values name value }, 1)

/-- State reached after an attribute read (projection of getattr). -/
def RecordProxy.afterGet (srv : Server) (p : RecordProxy) (name : String) : RecordProxy :=
  (p.getattr srv name).2.1

/-- Run a sequence of attribute reads, threading the proxy state. -/
def RecordProxy.runGets (srv : Server) (p : RecordProxy) : List String → RecordProxy
  | [] => p
  | n :: rest => RecordProxy.runGets srv (p.afterGet srv n) rest

/-- The invariant claimed for the proxy caches: every field name present in
the value cache is also present in the loaded set. -/
def RecordProxy.cacheKeysLoaded (p : RecordProxy) : Prop :=
  ∀ kv ∈ p.values, kv.1 ∈ p.loaded_fields

instance (p : RecordProxy) : Decidable p.cacheKeysLoaded := by
  unfold RecordProxy.cacheKeysLoaded; infer_instance

/-! Session layer, from src/pyodoo_connect/odoo.py.

The httpx transport becomes a scripted World: each client post consumes the
next script item (either an HTTP response or a network-level exception, the
latter standing for the httpx errors) and appends the request that was
actually sent to a log, so that on-the-wire payloads, resend attempts and
re-authentication attempts are all observable. -/

/-- Error taxonomy of odoo.py: OdooConnectionError, OdooAuthenticationError,
OdooRequestError (with its optional response payload) and
OdooValidationError. -/
inductive OdooErr where
  | connection : String → OdooErr
  | authentication : String → OdooErr
  | request : String → Option Value → OdooErr
  | validation : String → OdooErr

/-- Python str(e) for an OdooException: its message. -/
def OdooErr.msg : OdooErr → String
  | .connection m => m
  | .authentication m => m
  | .request m _ => m
  | .validation m => m

/-- Kind tests used by theorems to classify a raised error. -/
def OdooErr.isConnection : OdooErr → Bool
  | .connection _ => true
  | _ => false

def OdooErr.isAuthentication : OdooErr → Bool
  | .authentication _ => true
  | _ => false

def OdooErr.isRequest : OdooErr → Bool
  | .request _ _ => true
  | _ => false

def OdooErr.isValidation : OdooErr → Bool
  | .validation _ => true
  | _ => false

/-- One HTTP response: status code, parsed JSON body, and the session_id
cookie it carries (response.cookies.get, None when absent). -/
structure HttpResponse where
  status : Nat
  body : Value
  cookie_session_id : Option String

/-- One scripted transport event: a response, or a network-level failure
(httpx.HTTPError / httpx timeout raised by the post call itself). -/
inductive ScriptItem where
  | resp : HttpResponse → ScriptItem
  | netError : ScriptItem

/-- A request as actually sent: endpoint, JSON payload, session cookie. -/
structure SentRequest where
  endpoint : String
  payload : Value
  cookie : Option String

/-- The transport world: current clock, the remaining server script, and the
log of requests sent so far. -/
structure World where
  now : Nat
  script : List ScriptItem
  log : List SentRequest

/-- One client post: the request is logged and the next script item consumed;
none stands for a raised httpx error (an exhausted script also reads as a
network failure). -/
def World.post (w : World) (req : SentRequest) : Option HttpResponse × World :=
  match w.script with
  | [] => (none, { w with log := w.log ++ [req] })
  | .resp r :: rest => (some r, { w with script := rest, log := w.log ++ [req] })
  | .netError :: rest => (none, { w with script := rest, log := w.log ++ [req] })

/-- Python truthiness of an optional string (None and the empty string are
falsy). -/
def optTruthy : Option String → Bool
  | none => false
  | some s => !s.isEmpty

/-- An optional string as a JSON value (None becomes null). -/
def optStrV : Option String → Value
  | none => .vNone
  | some s => .vStr s

/-- Python url.rstrip of the slash character. -/
def rstripSlash (s : String) : String :=
  String.mk ((s.data.reverse.dropWhile (fun c => c = '/')).reverse)

/-- Abbreviated Python str of a value, used only inside error-message
interpolation (the repr of compound values is abbreviated; no claim inspects
those characters). -/
def pyStr : Value → String
  | .vNone => "None"
  | .vBool b => if b then "True" else "False"
  | .vInt n => toString n
  | .vStr s => s
  | .vList _ => "[...]"
  | .vDict _ => "\x7b...\x7d"

/-- A value as a dict (call sites in the source only reach this with actual
dicts; other types would raise a TypeError in Python, outside the model). -/
def Value.asDict : Value → Dict
  | .vDict d => d
  | _ => []

/-- OdooAPI state: connection parameters, session id, the mutable default
context, and the validation clock, as set up by OdooAPI init. -/
structure OdooAPI where
  url : String
  db : Option String
  username : Option String
  password : Option String
  session_id : Option String
  context : Dict
  last_validation : Nat
  validation_interval : Nat

/-- The default context installed by the OdooAPI constructor. -/
def defaultContext : Dict :=
  [("lang", .vStr "en_US"), ("tz", .vStr "Asia/Riyadh"), ("uid", .vNone)]

/-- The OdooAPI constructor: validates its arguments (empty url, or neither a
session id nor complete credentials, raise OdooValidationError) and installs
the default context and validation clock. -/
def OdooAPI.init (url : String) (db username password session_id : Option String) :
    Except OdooErr OdooAPI :=
  if url.isEmpty then .error (.validation "URL cannot be empty")
  else if !(optTruthy session_id || (optTruthy db && optTruthy username && optTruthy password)) then
    .error (.validation "Either session_id or (db, username, password) must be provided")
  else .ok { url := rstripSlash url, db := db, username := username, password := password,
             session_id := session_id, context := defaultContext,
             last_validation := 0, validation_interval := 60 }

/-- OdooAPI.validate_session: inside the validation interval, answer from the
session id alone; otherwise ping get_session_info and, when it reports a live
uid, refresh the context uid and the validation timestamp. -/
def OdooAPI.validate_session (api : OdooAPI) (w : World) : Bool × OdooAPI × World :=
  if w.now - api.last_validation < api.validation_interval then
    (optTruthy api.session_id, api, w)
  else if !optTruthy api.session_id then (false, api, w)
  else
    let payload := Value.vDict [("jsonrpc", .vStr "2.0"), ("params", .vDict [])]
    match w.post ⟨"/web/session/get_session_info", payload, api.session_id⟩ with
    | (some r, w1) =>
        if r.status = 200 then
          let uid := (r.body.jsGetD "result" (.vDict [])).jsGet "uid"
          if truthy uid then
            (true, { api with context := setKey api.context "uid" uid,
                              last_validation := w.now }, w1)
          else (false, api, w1)
        else (false, api, w1)
    | (none, w1) => (false, api, w1)

/-- The credential-login half of OdooAPI.connect: post to the authenticate
endpoint; on a 200 response with a truthy result, store the session cookie
and the reported uid. -/
def OdooAPI.connectLogin (api : OdooAPI) (w : World) : Bool × OdooAPI × World :=
  let payload := Value.vDict [("jsonrpc", .vStr "2.0"),
    ("params", .vDict [("db", optStrV api.db), ("login", optStrV api.username),
                       ("password", optStrV api.password)])]
  match w.post ⟨"/web/session/authenticate", payload, none⟩ with
  | (some r, w1) =>
      if r.status = 200 && truthy (r.body.jsGet "result") then
        (true, { api with session_id := r.cookie_session_id,
                          context := setKey api.context "uid"
                            ((r.body.jsGet "result").jsGet "uid") }, w1)
      else (false, api, w1)
  | (none, w1) => (false, api, w1)

/-- OdooAPI.connect: an existing session that still validates wins; otherwise
fall back to the credential login. -/
def OdooAPI.connect (api : OdooAPI) (w : World) : Bool × OdooAPI × World :=
  if optTruthy api.session_id then
    match api.validate_session w with
    | (true, api1, w1) => (true, api1, w1)
    | (false, api1, w1) => api1.connectLogin w1
  else api.connectLogin w

/-- Payload preparation inside make_request: set the jsonrpc field and, when
the payload has params with kwargs, overwrite the context inside kwargs with
the given context (this is the line that replaces whatever context the model
layer merged). -/
def preparePayload (payload : Value) (ctx : Dict) : Value :=
  let p1 := match payload with
    | .vDict d => Value.vDict (setKey d "jsonrpc" (.vStr "2.0"))
    | v => v
  match p1 with
  | .vDict d =>
      match dictGet d "params" with
      | some (.vDict ps) =>
          match dictGet ps "kwargs" with
          | some (.vDict kw) =>
              .vDict (setKey d "params" (.vDict (setKey ps "kwargs"
                (.vDict (setKey kw "context" (.vDict ctx))))))
          | _ => .vDict d
      | _ => .vDict d
  | v => v

/-- The transmission half of make_request, after the session was established
and the payload prepared.  Mirrors the try block of the source: a network
error from the post raises OdooConnectionError; raise_for_status turns every
status outside the 2xx range into an httpx error, hence OdooConnectionError;
a 200 body with an error key raises OdooRequestError which the generic
except-Exception clause rewraps; a 2xx status other than 200 triggers the
reconnect-and-resend branch, whose second response is returned unchecked when
it is a 200. -/
def OdooAPI.sendPrepared (api : OdooAPI) (w : World) (endpoint : String) (payload2 : Value) :
    Except OdooErr Value × OdooAPI × World :=
  match w.post ⟨endpoint, payload2, api.session_id⟩ with
  | (none, w1) => (.error (.connection "HTTP error occurred"), api, w1)
  | (some r, w1) =>
      if !(200 ≤ r.status && r.status ≤ 299) then
        (.error (.connection ("HTTP error occurred: status " ++ toString r.status)), api, w1)
      else if r.status = 200 then
        if r.body.hasKeyV "error" then
          let error_data := r.body.jsGet "error"
          let error_msg := (error_data.jsGetD "data" (.vDict [])).jsGetD "message"
            (.vStr (pyStr error_data))
          (.error (.request ("Unexpected error: Odoo server error: " ++ pyStr error_msg) none),
           api, w1)
        else (.ok r.body, api, w1)
      else
        match api.connect w1 with
        | (true, api1, w2) =>
            match w2.post ⟨endpoint, payload2, api1.session_id⟩ with
            | (some r2, w3) =>
                if r2.status = 200 then (.ok r2.body, api1, w3)
                else (.error (.request ("Unexpected error: Request failed with status code: "
                        ++ toString r2.status) none), api1, w3)
            | (none, w3) => (.error (.connection "HTTP error occurred"), api1, w3)
        | (false, api1, w2) =>
            (.error (.request ("Unexpected error: Request failed with status code: "
                ++ toString r.status) none), api1, w2)

/-- OdooAPI make_request, the single RPC choke point: when there is no
session id or validation fails, attempt one connect and raise
OdooAuthenticationError if it fails; then prepare the payload (overwriting
the kwargs context with the Session default context) and transmit. -/
def OdooAPI.make_request (api : OdooAPI) (w : World) (endpoint : String) (payload : Value) :
    Except OdooErr Value × OdooAPI × World :=
  let checked : Bool × OdooAPI × World :=
    if !optTruthy api.session_id then (false, api, w)
    else api.validate_session w
  match checked with
  | (true, api1, w1) => api1.sendPrepared w1 endpoint (preparePayload payload api1.context)
  | (false, api1, w1) =>
      match api1.connect w1 with
      | (true, api2, w2) => api2.sendPrepared w2 endpoint (preparePayload payload api2.context)
      | (false, api2, w2) =>
          (.error (.authentication "Failed to establish or validate session"), api2, w2)

/-- Model handle from odoo.py: model name plus a context snapshot. -/
structure OdooModel where
  model : String
  context : Dict

/-- OdooAPI.env: a handle over the given model with a copy of the current
default context (the OdooModel constructor with context None). -/
def OdooAPI.env (api : OdooAPI) (model : String) : OdooModel :=
  ⟨model, api.context⟩

/-- OdooModel.with_context: a new handle whose context layers the optional
dict argument and then the keyword arguments over the current context. -/
def OdooModel.with_context (m : OdooModel) (argDict : Option Dict) (kwargs : Dict) : OdooModel :=
  let ctx := match argDict with
    | some d => dictUpdate m.context d
    | none => m.context
  ⟨m.model, dictUpdate ctx kwargs⟩

/-- The generic method_call closure produced by the dunder getattr of
OdooModel: merge the handle context under any call-site context override into
the kwargs, build the call_kw payload, send it through make_request, and
return the result field of the response (False when absent). -/
def OdooModel.method_call (m : OdooModel) (api : OdooAPI) (w : World) (name : String)
    (args : List Value) (kwargs0 : Dict) : Except OdooErr Value × OdooAPI × World :=
  let kwargs :=
    match dictGet kwargs0 "context" with
    | some c => setKey kwargs0 "context" (.vDict (dictUpdate m.context c.asDict))
    | none => setKey kwargs0 "context" (.vDict m.context)
  let payload := Value.vDict [("params", .vDict
    [("model", .vStr m.model), ("method", .vStr name),
     ("args", .vList args), ("kwargs", .vDict kwargs)])]
  match api.make_request w ("/web/dataset/call_kw/" ++ m.model ++ "/" ++ name) payload with
  | (.ok body, api1, w1) => (.ok (body.jsGetD "result" (.vBool false)), api1, w1)
  | (.error e, api1, w1) => (.error e, api1, w1)

/-- OdooModel.create: build the create payload with empty kwargs, send it,
run the response through handle_response, raise OdooValidationError when the
result is falsy — and rewrap any OdooException, that validation error
included, as an OdooRequestError, exactly as the try/except of the source
does. -/
def OdooModel.create (m : OdooModel) (api : OdooAPI) (w : World) (values : Value) :
    Except OdooErr Value × OdooAPI × World :=
  let payload := Value.vDict [("params", .vDict
    [("model", .vStr m.model), ("method", .vStr "create"),
     ("args", .vList [values]), ("kwargs", .vDict [])])]
  match api.make_request w ("/web/dataset/call_kw/" ++ m.model ++ "/create") payload with
  | (.error e, api1, w1) =>
      (.error (.request ("Create operation failed: " ++ e.msg) none), api1, w1)
  | (.ok body, api1, w1) =>
      if !truthy body then
        (.error (.request ("Create operation failed: Create failed for model " ++ m.model) none),
         api1, w1)
      else if body.hasKeyV "error" then
        (.error (.request ("Create operation failed: Create failed for model " ++ m.model) none),
         api1, w1)
      else
        let result := body.jsGetD "result" (.vBool false)
        if !truthy result then
          (.error (.request "Create operation failed: Create operation returned no ID" none),
           api1, w1)
        else (.ok result, api1, w1)

/-- Top-level connect_odoo helper: construct the client, connect, and return
the pair of client and session id; every OdooException raised along the way
is caught and turned into the pair of None and None. -/
def connect_odoo (url : String) (db username password session_id : Option String) (w : World) :
    (Option OdooAPI × Option String) × World :=
  match OdooAPI.init url db username password session_id with
  | .error _ => ((none, none), w)
  | .ok api =>
      match api.connect w with
      | (true, api1, w1) => ((some api1, api1.session_id), w1)
      | (false, _, w1) => ((none, none), w1)

/-- Number of logged posts to the authenticate endpoint. -/
def authPostCount (log : List SentRequest) : Nat :=
  (log.filter (fun r => r.endpoint = "/web/session/authenticate")).length

/-- The context field inside the kwargs of a logged call_kw payload. -/
def wireContext (req : SentRequest) : Option Value :=
  match dictGet req.payload.asDict "params" with
  | some ps =>
      match dictGet ps.asDict "kwargs" with
      | some kw => dictGet kw.asDict "context"
      | none => none
  | none => none

/-- An API state holding a live session: session id present and last
validation fresh relative to the clock of the worlds used alongside it, so
that make_request takes its fast path without pinging the session-info
endpoint. -/
def validApi : OdooAPI :=
  { url := "http://server", db := some "db", username := some "u",
    password := some "p", session_id := some "sid", context := defaultContext,
    last_validation := 100, validation_interval := 60 }

/-! Lemmas about the Python-dict operations. -/

/-- Key list of a dict. -/
def keys : Dict → List String
  | [] => []
  | (k, _) :: rest => k :: keys rest

theorem dictGet_setKey_self (d : Dict) (k : String) (v : Value) :
    dictGet (setKey d k v) k = some v := by
  induction d with
  | nil => simp [setKey, dictGet]
  | cons hd tl ih =>
      obtain ⟨k1, v1⟩ := hd
      by_cases h : k1 = k
      · simp [setKey, dictGet, h]
      · simp only [setKey, if_neg h, dictGet, if_neg h, ih]

theorem dictGet_setKey_ne (d : Dict) (k k1 : String) (v : Value) (h : k ≠ k1) :
    dictGet (setKey d k v) k1 = dictGet d k1 := by
  induction d with
  | nil => simp only [setKey, dictGet, if_neg h]
  | cons hd tl ih =>
      obtain ⟨k2, v2⟩ := hd
      by_cases h2 : k2 = k
      · have h3 : ¬k2 = k1 := by rw [h2]; exact h
        simp only [setKey, if_pos h2, dictGet, if_neg h3]
      · by_cases h3 : k2 = k1
        · simp only [setKey, if_neg h2, dictGet, if_pos h3]
        · simp only [setKey, if_neg h2, dictGet, if_neg h3, ih]

theorem mem_setKey (d : Dict) (k : String) (v : Value) (kv : String × Value)
    (h : kv ∈ setKey d k v) : kv ∈ d ∨ kv.1 = k := by
  induction d with
  | nil =>
      simp only [setKey, List.mem_singleton] at h
      right; rw [h]
  | cons hd tl ih =>
      obtain ⟨k1, v1⟩ := hd
      by_cases h1 : k1 = k
      · simp only [setKey, if_pos h1, List.mem_cons] at h
        rcases h with h | h
        · right; rw [h]; exact h1
        · left; exact List.mem_cons_of_mem _ h
      · simp only [setKey, if_neg h1, List.mem_cons] at h
        rcases h with h | h
        · left; rw [h]; exact List.mem_cons_self _ _
        · rcases ih h with h2 | h2
          · left; exact List.mem_cons_of_mem _ h2
          · right; exact h2

theorem mem_dictUpdate (d e : Dict) (kv : String × Value)
    (h : kv ∈ dictUpdate d e) : kv ∈ d ∨ kv.1 ∈ keys e := by
  induction e generalizing d with
  | nil => left; exact h
  | cons hd tl ih =>
      obtain ⟨k1, v1⟩ := hd
      simp only [dictUpdate] at h
      rcases ih (setKey d k1 v1) h with h1 | h1
      · rcases mem_setKey d k1 v1 kv h1 with h2 | h2
        · left; exact h2
        · right; simp only [keys]; rw [h2]; exact List.mem_cons_self _ _
      · right; simp only [keys]; exact List.mem_cons_of_mem _ h1

theorem dictGet_dictUpdate_not_mem (d e : Dict) (k : String)
    (h : k ∉ keys e) : dictGet (dictUpdate d e) k = dictGet d k := by
  induction e generalizing d with
  | nil => rfl
  | cons hd tl ih =>
      obtain ⟨k1, v1⟩ := hd
      simp only [keys, List.mem_cons, not_or] at h
      simp only [dictUpdate]
      rw [ih (setKey d k1 v1) h.2,
        dictGet_setKey_ne d k1 k v1 (fun hh => h.1 hh.symm)]

theorem dictGet_dictUpdate_of_nodup (d e : Dict) (k : String) (v : Value)
    (hnd : (keys e).Nodup) (h : dictGet e k = some v) :
    dictGet (dictUpdate d e) k = some v := by
  induction e generalizing d with
  | nil => exact absurd h (by simp [dictGet])
  | cons hd tl ih =>
      obtain ⟨k1, v1⟩ := hd
      simp only [keys, List.nodup_cons] at hnd
      by_cases h1 : k1 = k
      · rw [dictGet, if_pos h1] at h
        simp only [dictUpdate]
        rw [dictGet_dictUpdate_not_mem _ _ _ (h1 ▸ hnd.1), ← h1,
          dictGet_setKey_self]
        exact h
      · rw [dictGet, if_neg h1] at h
        simp only [dictUpdate]
        exact ih _ hnd.2 h

theorem mem_keys (d : Dict) (k : String) : k ∈ keys d ↔ ∃ v, (k, v) ∈ d := by
  induction d with
  | nil => simp [keys]
  | cons hd tl ih =>
      obtain ⟨k1, v1⟩ := hd
      simp only [keys, List.mem_cons]
      constructor
      · rintro (h | h)
        · exact ⟨v1, Or.inl (by rw [h])⟩
        · obtain ⟨v, hv⟩ := ih.1 h
          exact ⟨v, Or.inr hv⟩
      · rintro ⟨v, h | h⟩
        · left; exact congrArg Prod.fst h
        · right; exact ih.2 ⟨v, h⟩

/-! Theorems for the claims. -/

/-- Claim C9: the Command encoder functions return exactly the fixed triples
for every dict of values, integer id and list of ids: create gives
(0, 0, values), update gives (1, id, values), delete gives (2, id, 0),
unlink gives (3, id, 0), link gives (4, id, 0), clear gives (5, 0, 0) and
set gives (6, 0, ids).  The encoders are pure Lean functions of their
arguments, so they touch no network and no state. -/
theorem command_encoder_fixed_triples (values : Dict) (id : Int) (ids : List Value) :
    Command.create values = (0, 0, Value.vDict values) ∧
    Command.update id values = (1, id, Value.vDict values) ∧
    Command.delete id = (2, id, Value.vInt 0) ∧
    Command.unlink id = (3, id, Value.vInt 0) ∧
    Command.link id = (4, id, Value.vInt 0) ∧
    Command.clear = (5, 0, Value.vInt 0) ∧
    Command.set ids = (6, 0, Value.vList ids) :=
  ⟨rfl, rfl, rfl, rfl, rfl, rfl, rfl⟩

/-- Claim C10: connect_odoo never raises; on every input it either returns
the pair of None and None (when construction or connection failed with a
library exception) or the connected client together with its session id. -/
theorem connect_odoo_total_pair (url : String) (db username password session_id : Option String)
    (w : World) :
    (connect_odoo url db username password session_id w).1 = (none, none) ∨
    ∃ api : OdooAPI, (connect_odoo url db username password session_id w).1 =
      (some api, api.session_id) := by
  cases h : OdooAPI.init url db username password session_id with
  | error e => left; simp [connect_odoo, h]
  | ok api =>
      rcases h2 : api.connect w with ⟨b, api1, w1⟩
      cases b
      · left; simp [connect_odoo, h, h2]
      · right; exact ⟨api1, by simp [connect_odoo, h, h2]⟩

/-- Claim C6: through the generic method dispatch of a Record Proxy (with its
default empty context), a single positional dict argument d is forwarded with
kwargs consisting exactly of the values key bound to d, while positional
arguments whose head is not a mapping are rejected with a ValueError before
any network call occurs (the error is returned instead of a SentCall, so
nothing reaches the wire). -/
theorem method_call_argument_validation (mdl : String) (id : Int) (mname : String) :
    (∀ d : Dict, MethodCaller.call ⟨mdl, id, mname, []⟩ [.vDict d] [] =
        .ok ⟨mdl, [id], if mname = "write" then "update" else mname,
             [("values", .vDict d)]⟩) ∧
    (∀ (a b : Value) (kw : Dict), a.isDict = false →
        MethodCaller.call ⟨mdl, id, mname, []⟩ [a, b] kw =
          .error (.valueError "Positional arguments must be a single dictionary containing the parameters for the method.")) := by
  constructor
  · intro d
    simp [MethodCaller.call]
  · intro a b kw ha
    cases a <;> simp_all [MethodCaller.call, Value.isDict]

/-- Witness for claim C6 at concrete inputs: the dict call forwards the
values keyword, and two integer positionals are rejected. -/
theorem method_call_argument_validation_witness :
    MethodCaller.call ⟨"res.partner", 1, "some_method", []⟩ [.vDict [("a", .vInt 1)]] [] =
      .ok ⟨"res.partner", [1], if "some_method" = "write" then "update" else "some_method",
           [("values", .vDict [("a", .vInt 1)])]⟩ ∧
    MethodCaller.call ⟨"res.partner", 1, "some_method", []⟩ [.vInt 1, .vInt 2] [] =
      .error (.valueError "Positional arguments must be a single dictionary containing the parameters for the method.") :=
  ⟨(method_call_argument_validation "res.partner" 1 "some_method").1 [("a", .vInt 1)],
   (method_call_argument_validation "res.partner" 1 "some_method").2 (.vInt 1) (.vInt 2) [] rfl⟩

/-- Claim C8: whenever the generic method dispatch of a Record Proxy actually
issues an RPC, the method name on the wire is update when the requested name
was write, and the requested name unchanged otherwise. -/
theorem generic_dispatch_renames_write_to_update (mc : MethodCaller) (args : List Value)
    (kw : Dict) (r : SentCall) (h : MethodCaller.call mc args kw = .ok r) :
    r.method = if mc.method_name = "write" then "update" else mc.method_name := by
  cases args with
  | nil =>
      simp only [MethodCaller.call, Except.ok.injEq] at h
      rw [← h]
  | cons a rest =>
      cases a
      case vDict d =>
        simp only [MethodCaller.call, Except.ok.injEq] at h
        rw [← h]
      all_goals exact absurd h (by simp [MethodCaller.call])

/-- Claim C3, counterexample: on a freshly browsed Record Proxy, a single
successful attribute write puts the field in the value cache without adding
it to the loaded set, so the claimed invariant (every cached field name is in
the loaded set) is false after that one-step lifetime. -/
theorem cache_loaded_invariant_broken_by_write :
    (RecordProxy.setattr
        { fieldsGet := fun _ fs => fs, readResp := fun _ _ _ => [],
          writeResp := fun _ _ _ => .ok (.vBool true) }
        ⟨"res.partner", 7, [], [], []⟩ "x" (.vInt 1)) =
      (.ok, ⟨"res.partner", 7, [], [("x", .vInt 1)], []⟩, 1) ∧
    ¬ (⟨"res.partner", 7, [], [("x", .vInt 1)], []⟩ : RecordProxy).cacheKeysLoaded :=
  ⟨rfl, by decide⟩

/-- Server responses to read whose first record carries only requested keys
(what the real server returns minus its implicit extra id column). -/
def Server.readExact (srv : Server) : Prop :=
  ∀ (mdl : String) (ids : List Int) (fs : List String),
    match srv.readResp mdl ids fs with
    | [] => True
    | rec :: _ => ∀ kv ∈ rec, kv.1 ∈ fs

theorem cacheKeysLoaded_afterGet (srv : Server) (hsrv : srv.readExact)
    (p : RecordProxy) (hp : p.cacheKeysLoaded) (name : String) :
    (p.afterGet srv name).cacheKeysLoaded := by
  unfold RecordProxy.afterGet RecordProxy.getattr
  cases hv : dictGet p.values name with
  | some v => exact hp
  | none =>
      by_cases hl : name ∈ p.loaded_fields
      · simp only [hl, not_true_eq_false, if_false]
        exact hp
      · simp only [hl, not_false_eq_true, if_true]
        unfold RecordProxy.fetch_field
        by_cases hf : name ∈ srv.fieldsGet p.model_name [name]
        · simp only [hf, if_true]
          cases hr : srv.readResp p.model_name [p.record_id] [name] with
          | nil => exact hp
          | cons rec rest =>
              intro kv hkv
              simp only [List.mem_insert_iff]
              rcases mem_dictUpdate p.values rec kv hkv with h1 | h1
              · exact Or.inr (hp kv h1)
              · have := hsrv p.model_name [p.record_id] [name]
                rw [hr] at this
                obtain ⟨v1, hv1⟩ := (mem_keys rec kv.1).1 h1
                have hm := this (kv.1, v1) hv1
                simp at hm
                exact Or.inl hm
        · simp only [hf, if_false]
          exact hp

/-- Claim C3, amended: after construction and any sequence of attribute reads
against a server whose read responses carry only the requested field, every
field name in the value cache is in the loaded set; the invariant as claimed
fails once attribute writes (or reads whose response carries extra keys)
enter the lifetime, because the write path updates the cache without touching
the loaded set. -/
theorem cache_subset_loaded_after_reads (srv : Server) (hsrv : srv.readExact)
    (mdl : String) (id : Int) (ctx : Dict) (names : List String) :
    (RecordProxy.runGets srv ⟨mdl, id, ctx, [], []⟩ names).cacheKeysLoaded := by
  have aux : ∀ (ns : List String) (p : RecordProxy), p.cacheKeysLoaded →
      (RecordProxy.runGets srv p ns).cacheKeysLoaded := by
    intro ns
    induction ns with
    | nil => intro p hp; exact hp
    | cons n rest ih =>
        intro p hp
        exact ih _ (cacheKeysLoaded_afterGet srv hsrv p hp n)
  exact aux names _ (fun kv hkv => absurd hkv (List.not_mem_nil kv))

/-- Witness for the amended claim C3 at a concrete server and read trace. -/
theorem cache_subset_loaded_after_reads_witness :
    ({ fieldsGet := fun _ fs => fs, readResp := fun _ _ _ => [],
       writeResp := fun _ _ _ => .ok .vNone } : Server).readExact ∧
    (RecordProxy.runGets
        { fieldsGet := fun _ fs => fs, readResp := fun _ _ _ => [],
          writeResp := fun _ _ _ => .ok .vNone }
        ⟨"res.partner", 1, [], [], []⟩ ["a", "b"]).cacheKeysLoaded :=
  ⟨fun _ _ _ => trivial,
   cache_subset_loaded_after_reads _ (fun _ _ _ => trivial) "res.partner" 1 [] ["a", "b"]⟩

/-- Claim C4: for a field name (not one of the internal attributes), when the
underlying write RPC succeeds, setattr updates the value cache so that the
immediately following read of the same name on the same proxy returns the
written value with zero RPCs; when the write RPC raises, the error propagates
and the proxy state, its value cache included, is unchanged. -/
theorem set_then_read_coherent (srv : Server) (p : RecordProxy) (name : String) (v : Value)
    (hname : RecordProxy.isInternal name = false) :
    (∀ r, srv.writeResp p.model_name [p.record_id] [(name, v)] = .ok r →
       p.setattr srv name v = (.ok, { p with values := setKey p.values name v }, 1) ∧
       RecordProxy.getattr srv { p with values := setKey p.values name v } name =
         (.value v, { p with values := setKey p.values name v }, 0)) ∧
    (∀ e, srv.writeResp p.model_name [p.record_id] [(name, v)] = .error e →
       p.setattr srv name v = (.error e, p, 1)) := by
  constructor
  · intro r hr
    constructor
    · simp [RecordProxy.setattr, hname, hr]
    · simp [RecordProxy.getattr, dictGet_setKey_self]
  · intro e he
    simp [RecordProxy.setattr, hname, he]

/-- Witness for claim C4 at a concrete proxy: a successful write caches the
value and the next read returns it with zero RPCs. -/
theorem set_then_read_coherent_witness :
    RecordProxy.isInternal "name" = false ∧
    (RecordProxy.setattr
        { fieldsGet := fun _ fs => fs, readResp := fun _ _ _ => [],
          writeResp := fun _ _ _ => .ok (.vBool true) }
        ⟨"res.partner", 1, [], [], []⟩ "name" (.vStr "Acme")) =
      (.ok, ⟨"res.partner", 1, [], [("name", .vStr "Acme")], []⟩, 1) ∧
    (RecordProxy.getattr
        { fieldsGet := fun _ fs => fs, readResp := fun _ _ _ => [],
          writeResp := fun _ _ _ => .ok (.vBool true) }
        ⟨"res.partner", 1, [], [("name", .vStr "Acme")], []⟩ "name") =
      (.value (.vStr "Acme"), ⟨"res.partner", 1, [], [("name", .vStr "Acme")], []⟩, 0) := by
  refine ⟨rfl, ?_, ?_⟩
  · exact ((set_then_read_coherent
      { fieldsGet := fun _ fs => fs, readResp := fun _ _ _ => [],
        writeResp := fun _ _ _ => .ok (.vBool true) }
      ⟨"res.partner", 1, [], [], []⟩ "name" (.vStr "Acme") rfl).1 (.vBool true) rfl).1
  · exact ((set_then_read_coherent
      { fieldsGet := fun _ fs => fs, readResp := fun _ _ _ => [],
        writeResp := fun _ _ _ => .ok (.vBool true) }
      ⟨"res.partner", 1, [], [], []⟩ "name" (.vStr "Acme") rfl).1 (.vBool true) rfl).2

/-- Claim C5, counterexample: reading an existing field twice on a fresh
Record Proxy issues two RPCs, not one — the first read performs a fields_get
metadata RPC and then the value-fetch read RPC, the second read is served
from cache.  Both reads return the same value. -/
theorem double_read_issues_two_rpcs :
    (RecordProxy.getattr
        { fieldsGet := fun _ fs => fs,
          readResp := fun _ _ _ => [[("name", .vStr "Acme")]],
          writeResp := fun _ _ _ => .ok (.vBool true) }
        ⟨"res.partner", 1, [], [], []⟩ "name") =
      (.value (.vStr "Acme"), ⟨"res.partner", 1, [], [("name", .vStr "Acme")], ["name"]⟩, 2) ∧
    (2 : Nat) ≠ 1 ∧
    (RecordProxy.getattr
        { fieldsGet := fun _ fs => fs,
          readResp := fun _ _ _ => [[("name", .vStr "Acme")]],
          writeResp := fun _ _ _ => .ok (.vBool true) }
        ⟨"res.partner", 1, [], [("name", .vStr "Acme")], ["name"]⟩ "name") =
      (.value (.vStr "Acme"), ⟨"res.partner", 1, [], [("name", .vStr "Acme")], ["name"]⟩, 0) :=
  ⟨rfl, by decide, rfl⟩

/-- Claim C5, amended: reading the same existing field twice on the same
Record Proxy issues the value-fetch RPC exactly once, as part of a first read
that issues two RPCs in total (one fields_get metadata RPC and one read);
the second read is served from the cache with zero RPCs and returns the
identical value, and leaves the proxy state unchanged. -/
theorem double_read_cached_second (srv : Server) (p : RecordProxy) (name : String) (v : Value)
    (rec : Dict) (rest : List Dict)
    (h1 : dictGet p.values name = none)
    (h2 : name ∉ p.loaded_fields)
    (h3 : name ∈ srv.fieldsGet p.model_name [name])
    (h4 : srv.readResp p.model_name [p.record_id] [name] = rec :: rest)
    (h5 : dictGet rec name = some v)
    (h6 : (keys rec).Nodup) :
    (p.getattr srv name).2.2 = 2 ∧
    (p.getattr srv name).1 = .value v ∧
    ((p.getattr srv name).2.1.getattr srv name) =
      (.value v, (p.getattr srv name).2.1, 0) := by
  have hv : dictGet (dictUpdate p.values rec) name = some v :=
    dictGet_dictUpdate_of_nodup p.values rec name v h6 h5
  have hg : p.getattr srv name =
      (.value v,
       { p with values := dictUpdate p.values rec,
                loaded_fields := p.loaded_fields.insert name }, 2) := by
    simp [RecordProxy.getattr, RecordProxy.fetch_field, h1, h2, h3, h4, hv]
  refine ⟨by rw [hg], by rw [hg], ?_⟩
  rw [hg]
  simp [RecordProxy.getattr, hv]

/-- Witness for the amended claim C5 at a concrete server and proxy. -/
theorem double_read_cached_second_witness :
    dictGet ([] : Dict) "name" = none ∧
    "name" ∉ ([] : List String) ∧
    "name" ∈ ["name"] ∧
    (keys [("name", Value.vStr "Acme")]).Nodup ∧
    ((⟨"res.partner", 1, [], [], []⟩ : RecordProxy).getattr
        { fieldsGet := fun _ fs => fs,
          readResp := fun _ _ _ => [[("name", .vStr "Acme")]],
          writeResp := fun _ _ _ => .ok (.vBool true) } "name").2.2 = 2 := by
  refine ⟨rfl, by decide, by decide, by decide, ?_⟩
  exact (double_read_cached_second
    { fieldsGet := fun _ fs => fs,
      readResp := fun _ _ _ => [[("name", .vStr "Acme")]],
      writeResp := fun _ _ _ => .ok (.vBool true) }
    ⟨"res.partner", 1, [], [], []⟩ "name" (.vStr "Acme") [("name", .vStr "Acme")] []
    rfl (by decide) (by decide) rfl rfl (by decide)).1

/-- Claim C1, evaluation at the failing input: with Session default context D
(the constructor default), handle override H mapping tz to Asia/Dubai, and
call-site override C mapping lang to fr_FR, the context actually sent on the
wire is exactly D — make_request overwrites the kwargs context with the
Session default, discarding the merge performed by the model layer — whereas
the claimed layering D updated by H updated by C has lang fr_FR and tz
Asia/Dubai. -/
theorem wire_context_is_session_default_only :
    let w : World := { now := 120,
                       script := [.resp ⟨200, .vDict [("result", .vInt 1)], none⟩],
                       log := [] }
    let handle := (validApi.env "res.partner").with_context none [("tz", .vStr "Asia/Dubai")]
    let out := handle.method_call validApi w "read" []
      [("context", .vDict [("lang", .vStr "fr_FR")])]
    let claimed := dictUpdate (dictUpdate defaultContext [("tz", .vStr "Asia/Dubai")])
      [("lang", .vStr "fr_FR")]
    (out.2.2.log.map wireContext) = [some (.vDict defaultContext)] ∧
    dictGet defaultContext "lang" = some (.vStr "en_US") ∧
    dictGet defaultContext "tz" = some (.vStr "Asia/Riyadh") ∧
    dictGet claimed "lang" = some (.vStr "fr_FR") ∧
    dictGet claimed "tz" = some (.vStr "Asia/Dubai") :=
  ⟨rfl, rfl, rfl, rfl, rfl⟩

/-- Claim C2, evaluation at the failing input: with a valid session, a data
post answered with HTTP status 500 makes make_request raise
OdooConnectionError immediately — raise_for_status turns every non-2xx
status into an httpx error before the reconnect branch can run — with no
re-authentication (zero posts to the authenticate endpoint) and no resend
(exactly one request on the wire). -/
theorem non_success_status_connection_error_no_retry :
    let w : World := { now := 120, script := [.resp ⟨500, .vDict [], none⟩], log := [] }
    let payload := Value.vDict [("params", .vDict
      [("model", .vStr "res.partner"), ("method", .vStr "read"),
       ("args", .vList []), ("kwargs", .vDict [])])]
    let out := validApi.make_request w "/web/dataset/call_kw/res.partner/read" payload
    (match out.1 with
     | .error e => e.isConnection = true
     | .ok _ => False) ∧
    authPostCount out.2.2.log = 0 ∧
    out.2.2.log.length = 1 :=
  ⟨rfl, rfl, rfl⟩

/-- Claim C7, counterexample: when the server answers create with a 200
response whose result is falsy, the error surfaced to the caller is an
OdooRequestError, not an OdooValidationError — the validation error raised
inside create is caught by its own blanket except clause and rewrapped. -/
theorem create_falsy_id_raises_request_error :
    let w : World := { now := 120,
                       script := [.resp ⟨200, .vDict [("result", .vBool false)], none⟩],
                       log := [] }
    let out := (validApi.env "res.partner").create validApi w (.vDict [("name", .vStr "Acme")])
    out.1 = .error (.request "Create operation failed: Create operation returned no ID" none) ∧
    (match out.1 with
     | .error e => e.isValidation = false
     | .ok _ => False) :=
  ⟨rfl, rfl⟩

theorem make_request_valid_session (api : OdooAPI) (w : World) (ep : String) (payload : Value)
    (hsid : optTruthy api.session_id = true)
    (hfresh : w.now - api.last_validation < api.validation_interval) :
    api.make_request w ep payload =
      api.sendPrepared w ep (preparePayload payload api.context) := by
  unfold OdooAPI.make_request OdooAPI.validate_session
  simp [hsid, if_pos hfresh]

theorem sendPrepared_200 (api : OdooAPI) (w : World) (ep : String) (p2 : Value)
    (body : Value) (ck : Option String) (rest : List ScriptItem)
    (hscript : w.script = ScriptItem.resp ⟨200, body, ck⟩ :: rest)
    (herr : body.hasKeyV "error" = false) :
    api.sendPrepared w ep p2 =
      (.ok body, api, { w with script := rest, log := w.log ++ [⟨ep, p2, api.session_id⟩] }) := by
  unfold OdooAPI.sendPrepared World.post
  rw [hscript]
  simp [herr]

/-- Claim C7, amended: with a valid session and a 200 response carrying no
error key, create returns the result field of the body (the new id) when it
is truthy, and otherwise fails with an OdooRequestError wrapping the message
of the internal validation error about the missing id (the error kind the
caller sees is Request, not Validation). -/
theorem create_falsy_id_error_policy (api : OdooAPI) (w : World) (mdl : String)
    (values : Value) (body : Value) (ck : Option String)
    (hsid : optTruthy api.session_id = true)
    (hfresh : w.now - api.last_validation < api.validation_interval)
    (hscript : w.script = [.resp ⟨200, body, ck⟩])
    (hbody : truthy body = true)
    (herr : body.hasKeyV "error" = false) :
    ((api.env mdl).create api w values).1 =
      (if truthy (body.jsGetD "result" (.vBool false)) = true
       then .ok (body.jsGetD "result" (.vBool false))
       else .error (.request "Create operation failed: Create operation returned no ID" none)) := by
  simp only [OdooModel.create, OdooAPI.env]
  rw [make_request_valid_session api w _ _ hsid hfresh,
    sendPrepared_200 api w _ _ body ck [] hscript herr]
  by_cases hres : truthy (body.jsGetD "result" (.vBool false)) = true <;>
    simp [hbody, herr, hres]

/-- Witness for the amended claim C7 at a concrete session and a falsy create
result. -/
theorem create_falsy_id_error_policy_witness :
    optTruthy validApi.session_id = true ∧
    (120 - validApi.last_validation < validApi.validation_interval) ∧
    truthy (.vDict [("result", .vBool false)]) = true ∧
    Value.hasKeyV (.vDict [("result", .vBool false)]) "error" = false ∧
    ((validApi.env "res.partner").create validApi
      { now := 120,
        script := [.resp ⟨200, .vDict [("result", .vBool false)], none⟩],
        log := [] }
      (.vDict [("name", .vStr "Acme")])).1 =
      (if truthy ((Value.vDict [("result", .vBool false)]).jsGetD "result" (.vBool false)) = true
       then .ok ((Value.vDict [("result", .vBool false)]).jsGetD "result" (.vBool false))
       else .error (.request "Create operation failed: Create operation returned no ID" none)) := by
  refine ⟨by decide, by decide, by decide, by decide, ?_⟩
  exact create_falsy_id_error_policy validApi
    { now := 120,
      script := [.resp ⟨200, .vDict [("result", .vBool false)], none⟩],
      log := [] }
    "res.partner" (.vDict [("name", .vStr "Acme")]) (.vDict [("result", .vBool false)]) none
    (by decide) (by decide) rfl (by decide) (by decide)

/-- Witness for claim C8 at a concrete input: dispatching write with no
arguments issues the RPC under the name update. -/
theorem generic_dispatch_renames_write_to_update_witness :
    MethodCaller.call ⟨"res.partner", 1, "write", []⟩ [] [] =
      .ok ⟨"res.partner", [1], "update", []⟩ ∧
    (⟨"res.partner", [1], "update", []⟩ : SentCall).method =
      (if "write" = "write" then "update" else "write") :=
  ⟨rfl, generic_dispatch_renames_write_to_update ⟨"res.partner", 1, "write", []⟩ [] []
    ⟨"res.partner", [1], "update", []⟩ rfl⟩

end Pyodoo
